import Mathlib

/-!
Verification of the domain-probing core of `cek-pbn` (`src/main.py`).

Modelling conventions (shallow embedding):
* Python strings are modelled as `List Char`; `str.strip()`, `str.lower()`,
  `startswith`, the substring operator `in`, slicing `[:n]` and
  `split(sep, 1)[1]` are modelled by the executable functions below
  (ASCII whitespace and ASCII case folding, which covers the repertoire
  the program manipulates).
* An HTTP response (`httpx.Response`) is a record of the numeric status
  code, the resolved URL (`resp.url` after redirect following) and the body
  text; the body is `Option`al: `none` models `resp.text` raising, which
  the code catches (`classify_response`, lines 106-110 of `main.py`).
* The network (`client.get`) is an arbitrary function from the URL to
  `Except`: `.ok` is a received response (any status), `.error m` is a
  raised exception whose `str()` is `m`.
* The `asyncio.Semaphore` admission discipline of `run` is modelled as an
  interleaving transition system over worker states (see `Step` below).
-/

namespace CekPbn

/-- ASCII whitespace recognised by Python's `str.strip()`
(space, tab, newline, carriage return, vertical tab, form feed). -/
def pyIsSpace (c : Char) : Bool :=
  c.toNat == 32 || c.toNat == 9 || c.toNat == 10 || c.toNat == 13 ||
    c.toNat == 11 || c.toNat == 12

/-- Python `str.strip()`: drop whitespace at both ends. -/
def pyStrip (s : List Char) : List Char :=
  ((s.dropWhile pyIsSpace).reverse.dropWhile pyIsSpace).reverse

/-- Python `str.lower()` (ASCII case folding, via `Char.toLower`). -/
def pyLower (s : List Char) : List Char :=
  s.map Char.toLower

/-- Python's substring operator `needle in hay`. -/
def containsSub (needle : List Char) : List Char → Bool
  | [] => needle.isPrefixOf []
  | c :: rest => needle.isPrefixOf (c :: rest) || containsSub needle rest

/-- The text after the first occurrence of `sep`:
models `s.split(sep, 1)[1]` on strings in which `sep` occurs
(the only way `build_candidate_urls` calls it). -/
def afterSep (sep : List Char) : List Char → List Char
  | [] => []
  | c :: rest =>
    if sep.isPrefixOf (c :: rest) then List.drop sep.length (c :: rest)
    else afterSep sep rest

/-- Embeds `PARKING_KEYWORDS` (main.py lines 14-19). -/
def PARKING_KEYWORDS : List (List Char) :=
  ["buy this domain".data, "this domain is for sale".data,
   "domain is parked".data, "parkingcrew".data, "sedo".data,
   "afternic".data, "dan.com".data, "expired domain".data,
   "has expired".data, "renew it now".data]

/-- Embeds `MAX_CONCURRENCY` (main.py line 11). -/
def MAX_CONCURRENCY : Nat := 20

/-- Embeds `build_candidate_urls` (main.py lines 22-45). -/
def build_candidate_urls (raw0 : List Char) : List (List Char) :=
  let raw := pyStrip raw0
  let lowr := pyLower raw
  if raw = [] then []
  else if "http://".data.isPrefixOf lowr then [raw]
  else if "https://".data.isPrefixOf lowr then
    [raw, "http://".data ++ afterSep "://".data raw]
  else ["https://".data ++ raw, "http://".data ++ raw]

/-- Embeds `is_wordpress` (main.py lines 48-61). -/
def is_wordpress (html_text : List Char) : Bool :=
  if html_text = [] then false
  else
    let lowr := pyLower html_text
    let markers : List (List Char) :=
      ["wp-content".data, "wp-includes".data, "wp-json".data,
       "content=\"wordpress".data, "generator\" content=\"wordpress".data]
    markers.any (fun m => containsSub m lowr)

/-- Embeds `is_parking_page` (main.py lines 64-70). -/
def is_parking_page (html_text : List Char) : Bool :=
  if html_text = [] then false
  else
    let lowr := pyLower html_text
    PARKING_KEYWORDS.any (fun k => containsSub k lowr)

/-- The four taxonomy statuses (string constants in main.py). -/
inductive Status where
  | AKTIF_WORDPRESS
  | AKTIF_NON_WORDPRESS
  | PARKED_ATAU_MUNGKIN_EXPIRED
  | ERROR_TIDAK_BISA_DIBUKA
deriving DecidableEq, Repr

/-- A classification result `(status, http_status, final_url, notes)`. -/
abbrev Classified := Status × Option Nat × Option (List Char) × List Char

/-- Embeds `classify_transport_error` (main.py lines 73-94); the argument is
`str(exc)`, the message text of the exception. -/
def classify_transport_error (excStr : List Char) : Classified :=
  let msg := pyLower excStr
  if containsSub "name or service not known".data msg ||
      containsSub "nxdomain".data msg || containsSub "not known".data msg then
    (.PARKED_ATAU_MUNGKIN_EXPIRED, none, none, "dns_error: ".data ++ msg)
  else if containsSub "timed out".data msg || containsSub "timeout".data msg then
    (.ERROR_TIDAK_BISA_DIBUKA, none, none, "timeout: ".data ++ msg)
  else if containsSub "ssl".data msg || containsSub "certificate".data msg then
    (.ERROR_TIDAK_BISA_DIBUKA, none, none, "ssl_error: ".data ++ msg)
  else
    (.ERROR_TIDAK_BISA_DIBUKA, none, none, msg)

/-- An HTTP response as `classify_response` consumes it: numeric status
code, resolved URL, and body text (`none` models `resp.text` raising). -/
structure Response where
  status_code : Nat
  url : List Char
  text : Option (List Char)
deriving DecidableEq, Repr

/-- The decimal digits of a `Nat`, for Python's f-string interpolation. -/
def natChars (n : Nat) : List Char := (Nat.repr n).data

/-- The `text_snippet` computation of `classify_response`
(main.py lines 106-110): first 4000 characters of the body,
empty when reading the body raises. -/
def snippet (resp : Response) : List Char :=
  match resp.text with
  | some t => t.take 4000
  | none => []

/-- Embeds `classify_response` (main.py lines 97-134). -/
def classify_response (resp : Response) (used_scheme : List Char) : Classified :=
  let http_status := resp.status_code
  let final_url := resp.url
  let text_snippet := snippet resp
  if 200 ≤ http_status ∧ http_status < 300 then
    if is_wordpress text_snippet then
      (.AKTIF_WORDPRESS, some http_status, some final_url,
        "wp_markers_found (".data ++ used_scheme ++ ")".data)
    else if is_parking_page text_snippet then
      (.PARKED_ATAU_MUNGKIN_EXPIRED, some http_status, some final_url,
        "parking_keywords_found (".data ++ used_scheme ++ ")".data)
    else
      (.AKTIF_NON_WORDPRESS, some http_status, some final_url,
        "no_wp_markers (".data ++ used_scheme ++ ")".data)
  else if 300 ≤ http_status ∧ http_status < 400 then
    (.AKTIF_NON_WORDPRESS, some http_status, some final_url,
      "3xx_status (".data ++ used_scheme ++ ")".data)
  else if 400 ≤ http_status ∧ http_status < 600 then
    if is_parking_page text_snippet then
      (.PARKED_ATAU_MUNGKIN_EXPIRED, some http_status, some final_url,
        "http_".data ++ natChars http_status ++ "_parking (".data ++
          used_scheme ++ ")".data)
    else
      (.ERROR_TIDAK_BISA_DIBUKA, some http_status, some final_url,
        "http_".data ++ natChars http_status ++ " (".data ++
          used_scheme ++ ")".data)
  else
    (.ERROR_TIDAK_BISA_DIBUKA, some http_status, some final_url,
      "unexpected_status (".data ++ used_scheme ++ ")".data)

/-- One Probe Outcome: the dict built by `check_one_domain`
(main.py lines 165-171 and 178-184). -/
structure Outcome where
  domain : List Char
  status : Status
  http_status : Option Nat
  final_url : Option (List Char)
  notes : List Char
deriving DecidableEq, Repr

/-- The network: `client.get` modelled as URL ↦ response or exception
message (`str(exc)`). -/
abbrev Net := List Char → Except (List Char) Response

/-- Embeds the `used_scheme` computation of a candidate (main.py line 154). -/
def used_scheme (url : List Char) : List Char :=
  if "https://".data.isPrefixOf (pyLower url) then "https".data else "http".data

/-- Python `str(exc)` where the recorded exception may be `None`
(`str(None) = "None"`). -/
def excStrOf : Option (List Char) → List Char
  | some m => m
  | none => "None".data

/-- A network on which every request raises with message `msg`
(for concrete instantiations). -/
def failNet (msg : List Char) : Net := fun _ => .error msg

/-- A network on which every request yields the response `r`
(for concrete instantiations). -/
def constNet (r : Response) : Net := fun _ => .ok r

/-- Assemble an `Outcome` from a domain and a `Classified` tuple. -/
def mkOutcome (domain : List Char) (c : Classified) : Outcome :=
  { domain := domain, status := c.1, http_status := c.2.1,
    final_url := c.2.2.1, notes := c.2.2.2 }

/-- The candidate loop of `check_one_domain` (main.py lines 153-184):
request each URL in order; a received response is classified and ends the
loop, an exception is recorded in `last_exc` and the loop continues; when
the candidates run out, classify the last recorded exception. -/
def tryCandidates (net : Net) (domain : List Char) :
    List (List Char) → Option (List Char) → Outcome
  | [], last_exc => mkOutcome domain (classify_transport_error (excStrOf last_exc))
  | url :: rest, _ =>
    match net url with
    | .ok resp => mkOutcome domain (classify_response resp (used_scheme url))
    | .error exc => tryCandidates net domain rest (some exc)

/-- Embeds `check_one_domain` (main.py lines 137-184): `none` is Python `None`
(skipped domain). -/
def check_one_domain (net : Net) (domain0 : List Char) : Option Outcome :=
  if pyStrip domain0 = [] ∨ "#".data.isPrefixOf (pyStrip domain0) then none
  else some (tryCandidates net (pyStrip domain0)
    (build_candidate_urls (pyStrip domain0)) none)

/-- The outcome list collected by `run` (main.py lines 187-207): blank
lines are dropped when the file is read (line 190), each remaining line is
probed, and `None` results are not collected (lines 203-206).  Collection
order abstracts the completion order. -/
def runOutcomes (net : Net) (lines : List (List Char)) : List Outcome :=
  (((lines.map pyStrip).filter (fun d => !d.isEmpty)).filterMap
    (check_one_domain net))

/-! Helper lemmas about the string model. -/

theorem toNat_ofNat_of_small {n : Nat} (h : n < 55296) : (Char.ofNat n).toNat = n := by
  have hv : n.isValidChar := Or.inl h
  rw [Char.ofNat, dif_pos hv]
  simp [Char.ofNatAux, Char.toNat, UInt32.toNat]

theorem toLower_eq (c : Char) :
    Char.toLower c =
      if 65 ≤ c.toNat ∧ c.toNat ≤ 90 then Char.ofNat (c.toNat + 32) else c := by
  simp only [Char.toLower, ge_iff_le]

theorem toNat_toLower (c : Char) :
    (Char.toLower c).toNat =
      if 65 ≤ c.toNat ∧ c.toNat ≤ 90 then c.toNat + 32 else c.toNat := by
  rw [toLower_eq]
  by_cases h : 65 ≤ c.toNat ∧ c.toNat ≤ 90
  · rw [if_pos h, if_pos h]
    exact toNat_ofNat_of_small (by omega)
  · rw [if_neg h, if_neg h]

theorem pyIsSpace_toLower (c : Char) : pyIsSpace (Char.toLower c) = pyIsSpace c := by
  have key : ∀ m : Nat, 65 ≤ m →
      ((m == 32 || m == 9 || m == 10 || m == 13 || m == 11 || m == 12) = false) := by
    intro m hm
    simp only [Bool.or_eq_false_iff, beq_eq_false_iff_ne, ne_eq]
    omega
  simp only [pyIsSpace]
  rw [toNat_toLower]
  split
  · next h => rw [key _ (by omega), key _ (by omega)]
  · rfl

theorem toLower_toLower (c : Char) :
    Char.toLower (Char.toLower c) = Char.toLower c := by
  by_cases h : 65 ≤ c.toNat ∧ c.toNat ≤ 90
  · have ht : (Char.toLower c).toNat = c.toNat + 32 := by rw [toNat_toLower, if_pos h]
    rw [toLower_eq (Char.toLower c), if_neg (by omega)]
  · have ht : (Char.toLower c).toNat = c.toNat := by rw [toNat_toLower, if_neg h]
    rw [toLower_eq (Char.toLower c), if_neg (by omega)]

theorem pyLower_pyLower (s : List Char) : pyLower (pyLower s) = pyLower s := by
  unfold pyLower
  rw [List.map_map]
  exact List.map_congr_left (fun c _ => toLower_toLower c)

theorem dropWhile_pyLower (s : List Char) :
    (pyLower s).dropWhile pyIsSpace = pyLower (s.dropWhile pyIsSpace) := by
  have hsp : pyIsSpace ∘ Char.toLower = pyIsSpace := funext pyIsSpace_toLower
  unfold pyLower
  rw [List.dropWhile_map, hsp]

theorem pyStrip_pyLower (s : List Char) : pyStrip (pyLower s) = pyLower (pyStrip s) := by
  unfold pyStrip
  rw [dropWhile_pyLower]
  rw [show (pyLower (s.dropWhile pyIsSpace)).reverse
        = pyLower (s.dropWhile pyIsSpace).reverse by
      unfold pyLower; exact (List.map_reverse _ _).symm]
  rw [dropWhile_pyLower]
  unfold pyLower
  exact (List.map_reverse _ _).symm

theorem head?_dropWhile {p : Char → Bool} {l : List Char} {c : Char}
    (h : (l.dropWhile p).head? = some c) : p c = false := by
  induction l with
  | nil => simp at h
  | cons a t ih =>
    rw [List.dropWhile_cons] at h
    split at h
    · exact ih h
    · next hpa =>
      simp only [List.head?_cons, Option.some.injEq] at h
      subst h
      simpa using hpa

theorem dropWhile_eq_self_of_head? {p : Char → Bool} {l : List Char}
    (h : ∀ c, l.head? = some c → p c = false) : l.dropWhile p = l := by
  cases l with
  | nil => rfl
  | cons a t =>
    rw [List.dropWhile_cons, if_neg]
    simp [h a rfl]

theorem pyStrip_head? {s : List Char} {c : Char}
    (h : (pyStrip s).head? = some c) : pyIsSpace c = false := by
  unfold pyStrip at h
  set u := s.dropWhile pyIsSpace with hu
  set v := u.reverse.dropWhile pyIsSpace with hv
  have hsplit : u.reverse = u.reverse.takeWhile pyIsSpace ++ v :=
    (List.takeWhile_append_dropWhile _ _).symm
  have hu2 : u = v.reverse ++ (u.reverse.takeWhile pyIsSpace).reverse := by
    have := congrArg List.reverse hsplit
    simpa using this
  have hhead : u.head? = some c := by
    rw [hu2, List.head?_append, h]
    rfl
  exact head?_dropWhile (hu ▸ hhead)

theorem dropWhile_dropWhile (p : Char → Bool) (l : List Char) :
    (l.dropWhile p).dropWhile p = l.dropWhile p := by
  induction l with
  | nil => rfl
  | cons a t ih =>
    rw [List.dropWhile_cons]
    split
    · exact ih
    · next h => rw [List.dropWhile_cons, if_neg h]

theorem pyStrip_pyStrip (s : List Char) : pyStrip (pyStrip s) = pyStrip s := by
  conv_lhs => rw [pyStrip]
  rw [dropWhile_eq_self_of_head? (fun c hc => pyStrip_head? hc)]
  rw [pyStrip, List.reverse_reverse, dropWhile_dropWhile]

/-! Helper lemmas about the candidate builder and the prober loop. -/

theorem afterSep_https (rest : List Char) :
    afterSep "://".data ("https://".data ++ rest) = rest := by
  show afterSep [':', '/', '/']
    (['h', 't', 't', 'p', 's', ':', '/', '/'] ++ rest) = rest
  simp [afterSep, List.isPrefixOf]

theorem not_http_of_https (rest : List Char) :
    "http://".data.isPrefixOf ("https://".data ++ rest) = false := by
  show List.isPrefixOf ['h', 't', 't', 'p', ':', '/', '/']
    (['h', 't', 't', 'p', 's', ':', '/', '/'] ++ rest) = false
  simp [List.isPrefixOf]

theorem build_candidate_urls_length (raw0 : List Char) (h : pyStrip raw0 ≠ []) :
    (build_candidate_urls raw0).length = 1 ∨ (build_candidate_urls raw0).length = 2 := by
  simp only [build_candidate_urls]
  rw [if_neg h]
  split
  · exact Or.inl rfl
  · split
    · exact Or.inr rfl
    · exact Or.inr rfl

theorem domain_mkOutcome (d : List Char) (c : Classified) :
    (mkOutcome d c).domain = d := rfl

theorem domain_tryCandidates (net : Net) (d : List Char) :
    ∀ (urls : List (List Char)) (x : Option (List Char)),
      (tryCandidates net d urls x).domain = d
  | [], _ => rfl
  | u :: rest, x => by
    cases h : net u with
    | ok r => simp [tryCandidates, h, mkOutcome]
    | error e =>
      simp only [tryCandidates, h]
      exact domain_tryCandidates net d rest (some e)

theorem tryCandidates_irrel (net : Net) (d u : List Char)
    (rest : List (List Char)) (x y : Option (List Char)) :
    tryCandidates net d (u :: rest) x = tryCandidates net d (u :: rest) y := by
  cases h : net u <;> simp [tryCandidates, h]

/-- Whether requesting `u` raises (the candidate "fails"). -/
def isFail (net : Net) (u : List Char) : Bool :=
  match net u with
  | .ok _ => false
  | .error _ => true

/-- The URLs the candidate loop actually requests: every candidate up to
and including the first one that yields a response. -/
def requests (net : Net) : List (List Char) → List (List Char)
  | [] => []
  | u :: rest =>
    match net u with
    | .ok _ => [u]
    | .error _ => u :: requests net rest

theorem requests_eq (net : Net) (urls : List (List Char)) :
    requests net urls =
      urls.takeWhile (isFail net) ++ (urls.dropWhile (isFail net)).take 1 := by
  induction urls with
  | nil => rfl
  | cons u rest ih =>
    cases h : net u with
    | ok r =>
      simp [requests, h, List.takeWhile_cons, List.dropWhile_cons, isFail]
    | error e =>
      simp [requests, h, List.takeWhile_cons, List.dropWhile_cons, isFail, ih]

theorem tryCandidates_first_ok (net : Net) (d : List Char) :
    ∀ (urls : List (List Char)) {u : List Char} {rest2 : List (List Char)},
      urls.dropWhile (isFail net) = u :: rest2 →
      ∃ r, net u = .ok r ∧
        ∀ x, tryCandidates net d urls x =
          mkOutcome d (classify_response r (used_scheme u))
  | [], _, _, hd => by simp at hd
  | a :: t, u, rest2, hd => by
    cases h : net a with
    | ok r =>
      have ha : isFail net a = false := by simp [isFail, h]
      rw [List.dropWhile_cons, if_neg (by simp [ha])] at hd
      injection hd with h1 _
      subst h1
      exact ⟨r, h, fun x => by simp [tryCandidates, h]⟩
    | error e =>
      have ha : isFail net a = true := by simp [isFail, h]
      rw [List.dropWhile_cons, if_pos ha] at hd
      obtain ⟨r, hr, hx⟩ := tryCandidates_first_ok net d t hd
      exact ⟨r, hr, fun x => by
        simp only [tryCandidates, h]
        exact hx (some e)⟩

theorem tryCandidates_all_fail (net : Net) (d : List Char) :
    ∀ (urls : List (List Char)), urls.dropWhile (isFail net) = [] → urls ≠ [] →
      ∃ e, (urls.map net).getLast? = some (.error e) ∧
        ∀ x, tryCandidates net d urls x =
          mkOutcome d (classify_transport_error e)
  | [], _, hne => absurd rfl hne
  | a :: t, hd, _ => by
    cases h : net a with
    | ok r =>
      have ha : isFail net a = false := by simp [isFail, h]
      rw [List.dropWhile_cons, if_neg (by simp [ha])] at hd
      exact absurd hd (by simp)
    | error e0 =>
      have ha : isFail net a = true := by simp [isFail, h]
      rw [List.dropWhile_cons, if_pos ha] at hd
      cases t with
      | nil =>
        refine ⟨e0, by simp [h], fun x => ?_⟩
        simp [tryCandidates, h, excStrOf]
      | cons b t2 =>
        obtain ⟨e, he, hx⟩ := tryCandidates_all_fail net d (b :: t2) hd (by simp)
        refine ⟨e, ?_, fun x => ?_⟩
        · simpa using he
        · simp only [tryCandidates, h]
          exact hx (some e0)

theorem check_one_domain_eq (net : Net) (domain0 : List Char)
    (h1 : pyStrip domain0 ≠ [])
    (h2 : "#".data.isPrefixOf (pyStrip domain0) = false) :
    check_one_domain net domain0 =
      some (tryCandidates net (pyStrip domain0)
        (build_candidate_urls (pyStrip domain0)) none) := by
  simp only [check_one_domain]
  rw [if_neg (fun hor => hor.elim h1
    (fun hb => by rw [h2] at hb; exact Bool.false_ne_true hb))]

/-! Claim theorems. -/

/-- C1: for every non-skipped domain, `check_one_domain` iterates candidate
URLs strictly in order: the requested URLs are exactly the failing prefix of
the candidate list plus the first responding candidate; a received response
(any status) is classified by `classify_response` and terminates the probe;
if every candidate raises, the loop ends and the last recorded exception is
classified by `classify_transport_error`. -/
theorem C1_candidate_loop (net : Net) (domain0 : List Char)
    (h1 : pyStrip domain0 ≠ [])
    (h2 : "#".data.isPrefixOf (pyStrip domain0) = false) :
    requests net (build_candidate_urls (pyStrip domain0)) =
      (build_candidate_urls (pyStrip domain0)).takeWhile (isFail net) ++
        ((build_candidate_urls (pyStrip domain0)).dropWhile (isFail net)).take 1 ∧
    (∀ u rest,
      (build_candidate_urls (pyStrip domain0)).dropWhile (isFail net) = u :: rest →
      ∃ r, net u = .ok r ∧
        check_one_domain net domain0 =
          some (mkOutcome (pyStrip domain0) (classify_response r (used_scheme u)))) ∧
    ((build_candidate_urls (pyStrip domain0)).dropWhile (isFail net) = [] →
      ∃ e, ((build_candidate_urls (pyStrip domain0)).map net).getLast? =
          some (.error e) ∧
        check_one_domain net domain0 =
          some (mkOutcome (pyStrip domain0) (classify_transport_error e))) := by
  have hc := check_one_domain_eq net domain0 h1 h2
  refine ⟨requests_eq net _, fun u rest hd => ?_, fun hd => ?_⟩
  · obtain ⟨r, hr, hx⟩ := tryCandidates_first_ok net (pyStrip domain0) _ hd
    exact ⟨r, hr, by rw [hc, hx none]⟩
  · have hne : build_candidate_urls (pyStrip domain0) ≠ [] := by
      have hlen := build_candidate_urls_length (pyStrip domain0)
        (by rw [pyStrip_pyStrip]; exact h1)
      rcases hlen with hl | hl <;>
        exact fun hnil => by simp [hnil] at hl
    obtain ⟨e, he, hx⟩ := tryCandidates_all_fail net (pyStrip domain0) _ hd hne
    exact ⟨e, he, by rw [hc, hx none]⟩

theorem C1_candidate_loop_witness :
    (pyStrip " a.test ".data ≠ [] ∧
      "#".data.isPrefixOf (pyStrip " a.test ".data) = false) ∧
    (requests (failNet "refused".data)
        (build_candidate_urls (pyStrip " a.test ".data)) =
      (build_candidate_urls (pyStrip " a.test ".data)).takeWhile
          (isFail (failNet "refused".data)) ++
        ((build_candidate_urls (pyStrip " a.test ".data)).dropWhile
          (isFail (failNet "refused".data))).take 1 ∧
    (∀ u rest,
      (build_candidate_urls (pyStrip " a.test ".data)).dropWhile
        (isFail (failNet "refused".data)) = u :: rest →
      ∃ r, failNet "refused".data u = .ok r ∧
        check_one_domain (failNet "refused".data) " a.test ".data =
          some (mkOutcome (pyStrip " a.test ".data)
            (classify_response r (used_scheme u)))) ∧
    ((build_candidate_urls (pyStrip " a.test ".data)).dropWhile
        (isFail (failNet "refused".data)) = [] →
      ∃ e, ((build_candidate_urls (pyStrip " a.test ".data)).map
          (failNet "refused".data)).getLast? = some (.error e) ∧
        check_one_domain (failNet "refused".data) " a.test ".data =
          some (mkOutcome (pyStrip " a.test ".data)
            (classify_transport_error e)))) :=
  ⟨⟨by decide, by decide⟩,
    C1_candidate_loop (failNet "refused".data) " a.test ".data
      (by decide) (by decide)⟩

/-- C2: on a lower-cased, trimmed input, `build_candidate_urls` returns `[]`
for the empty string, `[original]` for an `http://`-prefixed string (never
adding an https candidate), `[original, http-substituted]` for an
`https://`-prefixed string, and `[https://<domain>, http://<domain>]` when
no scheme is present. -/
theorem C2_build_candidate_urls (raw : List Char) :
    (pyLower (pyStrip raw) = [] →
      build_candidate_urls (pyLower (pyStrip raw)) = []) ∧
    ("http://".data.isPrefixOf (pyLower (pyStrip raw)) = true →
      build_candidate_urls (pyLower (pyStrip raw)) = [pyLower (pyStrip raw)]) ∧
    (∀ rest, pyLower (pyStrip raw) = "https://".data ++ rest →
      build_candidate_urls (pyLower (pyStrip raw)) =
        [pyLower (pyStrip raw), "http://".data ++ rest]) ∧
    ("http://".data.isPrefixOf (pyLower (pyStrip raw)) = false →
      "https://".data.isPrefixOf (pyLower (pyStrip raw)) = false →
      pyLower (pyStrip raw) ≠ [] →
      build_candidate_urls (pyLower (pyStrip raw)) =
        ["https://".data ++ pyLower (pyStrip raw),
         "http://".data ++ pyLower (pyStrip raw)]) := by
  set s := pyLower (pyStrip raw) with hs_def
  have hs : pyStrip s = s := by
    rw [hs_def, pyStrip_pyLower, pyStrip_pyStrip]
  have hl : pyLower s = s := by rw [hs_def, pyLower_pyLower]
  have hbuild : build_candidate_urls s =
      if s = [] then []
      else if "http://".data.isPrefixOf s then [s]
      else if "https://".data.isPrefixOf s then
        [s, "http://".data ++ afterSep "://".data s]
      else ["https://".data ++ s, "http://".data ++ s] := by
    simp only [build_candidate_urls]
    rw [hs, hl]
  refine ⟨fun he => ?_, fun hh => ?_, fun rest hr => ?_, fun hh1 hh2 hne => ?_⟩
  · rw [hbuild, if_pos he]
  · have hne : s ≠ [] := by
      intro he
      rw [he] at hh
      simp [List.isPrefixOf] at hh
    rw [hbuild, if_neg hne, if_pos hh]
  · have hne : s ≠ [] := by
      rw [hr]
      simp
    have hh1 : "http://".data.isPrefixOf s = false := by
      rw [hr]
      exact not_http_of_https rest
    have hh2 : "https://".data.isPrefixOf s = true := by
      rw [hr]
      exact List.isPrefixOf_iff_prefix.mpr ⟨rest, rfl⟩
    rw [hbuild, if_neg hne, if_neg (by simp [hh1]), if_pos hh2, hr,
      afterSep_https]
  · rw [hbuild, if_neg hne, if_neg (by simp [hh1]), if_neg (by simp [hh2])]

theorem C2_build_candidate_urls_witness :
    pyLower (pyStrip " HTTPS://Foo.com ".data) = "https://".data ++ "foo.com".data ∧
    build_candidate_urls (pyLower (pyStrip " HTTPS://Foo.com ".data)) =
      [pyLower (pyStrip " HTTPS://Foo.com ".data), "http://".data ++ "foo.com".data] :=
  ⟨by decide,
    (C2_build_candidate_urls " HTTPS://Foo.com ".data).2.2.1 "foo.com".data
      (by decide)⟩

/-- C10: for a non-empty trimmed domain not beginning with `#`, the
candidate list has length 1 or 2 (never 0), and the candidate loop's result
does not depend on the initial `last_exc = None`: the branch that hands
`last_exc` to `classify_transport_error` is reached only after at least one
request was attempted, so `classify_transport_error` is never invoked with
the `None` placeholder. -/
theorem C10_transport_never_none (net : Net) (domain0 : List Char)
    (h1 : pyStrip domain0 ≠ [])
    (h2 : "#".data.isPrefixOf (pyStrip domain0) = false) :
    ((build_candidate_urls (pyStrip domain0)).length = 1 ∨
      (build_candidate_urls (pyStrip domain0)).length = 2) ∧
    (∀ x y,
      tryCandidates net (pyStrip domain0)
        (build_candidate_urls (pyStrip domain0)) x =
      tryCandidates net (pyStrip domain0)
        (build_candidate_urls (pyStrip domain0)) y) ∧
    check_one_domain net domain0 =
      some (tryCandidates net (pyStrip domain0)
        (build_candidate_urls (pyStrip domain0)) none) := by
  have hlen := build_candidate_urls_length (pyStrip domain0)
    (by rw [pyStrip_pyStrip]; exact h1)
  refine ⟨hlen, fun x y => ?_, check_one_domain_eq net domain0 h1 h2⟩
  cases hurls : build_candidate_urls (pyStrip domain0) with
  | nil => rw [hurls] at hlen; simp at hlen
  | cons u rest => exact tryCandidates_irrel net (pyStrip domain0) u rest x y

theorem C10_transport_never_none_witness :
    (pyStrip " b.test ".data ≠ [] ∧
      "#".data.isPrefixOf (pyStrip " b.test ".data) = false) ∧
    (((build_candidate_urls (pyStrip " b.test ".data)).length = 1 ∨
      (build_candidate_urls (pyStrip " b.test ".data)).length = 2) ∧
    (∀ x y,
      tryCandidates (failNet "refused".data) (pyStrip " b.test ".data)
        (build_candidate_urls (pyStrip " b.test ".data)) x =
      tryCandidates (failNet "refused".data) (pyStrip " b.test ".data)
        (build_candidate_urls (pyStrip " b.test ".data)) y) ∧
    check_one_domain (failNet "refused".data) " b.test ".data =
      some (tryCandidates (failNet "refused".data) (pyStrip " b.test ".data)
        (build_candidate_urls (pyStrip " b.test ".data)) none)) :=
  ⟨⟨by decide, by decide⟩,
    C10_transport_never_none (failNet "refused".data) " b.test ".data
      (by decide) (by decide)⟩

/-- C3: a 2xx response whose snippet (first 4000 characters,
case-insensitively) contains a WordPress marker is classified
`AKTIF_WORDPRESS` with notes `wp_markers_found (<scheme>)`; no hypothesis
about parking keywords is needed because the WordPress check is evaluated
first and takes priority. -/
theorem C3_wordpress_priority (resp : Response) (scheme : List Char)
    (h2xx : 200 ≤ resp.status_code ∧ resp.status_code < 300)
    (hwp : is_wordpress (snippet resp) = true) :
    classify_response resp scheme =
      (.AKTIF_WORDPRESS, some resp.status_code, some resp.url,
        "wp_markers_found (".data ++ scheme ++ ")".data) := by
  simp only [classify_response]
  rw [if_pos h2xx, if_pos hwp]

theorem C3_wordpress_priority_witness :
    ((200 ≤ (200 : Nat) ∧ (200 : Nat) < 300) ∧
      is_wordpress (snippet ⟨200, "https://w.test/".data,
        some "wp-content and sedo buy this domain".data⟩) = true ∧
      is_parking_page (snippet ⟨200, "https://w.test/".data,
        some "wp-content and sedo buy this domain".data⟩) = true) ∧
    classify_response ⟨200, "https://w.test/".data,
        some "wp-content and sedo buy this domain".data⟩ "https".data =
      (.AKTIF_WORDPRESS, some 200, some "https://w.test/".data,
        "wp_markers_found (".data ++ "https".data ++ ")".data) :=
  ⟨⟨by decide, by decide, by decide⟩,
    C3_wordpress_priority ⟨200, "https://w.test/".data,
      some "wp-content and sedo buy this domain".data⟩ "https".data
      (by decide) (by decide)⟩

/-- C4: a response with status in 400-599 is classified
`PARKED_ATAU_MUNGKIN_EXPIRED` with notes `http_<code>_parking (<scheme>)`
when the parking signature is present, and `ERROR_TIDAK_BISA_DIBUKA` with
notes `http_<code> (<scheme>)` otherwise; in both cases `http_status` is
the observed code and `final_url` is the resolved URL. -/
theorem C4_client_server_error (resp : Response) (scheme : List Char)
    (h : 400 ≤ resp.status_code ∧ resp.status_code < 600) :
    (is_parking_page (snippet resp) = true →
      classify_response resp scheme =
        (.PARKED_ATAU_MUNGKIN_EXPIRED, some resp.status_code, some resp.url,
          "http_".data ++ natChars resp.status_code ++ "_parking (".data ++
            scheme ++ ")".data)) ∧
    (is_parking_page (snippet resp) = false →
      classify_response resp scheme =
        (.ERROR_TIDAK_BISA_DIBUKA, some resp.status_code, some resp.url,
          "http_".data ++ natChars resp.status_code ++ " (".data ++
            scheme ++ ")".data)) := by
  have hn2 : ¬(200 ≤ resp.status_code ∧ resp.status_code < 300) := by omega
  have hn3 : ¬(300 ≤ resp.status_code ∧ resp.status_code < 400) := by omega
  constructor
  · intro hp
    simp only [classify_response]
    rw [if_neg hn2, if_neg hn3, if_pos h, if_pos hp]
  · intro hp
    simp only [classify_response]
    rw [if_neg hn2, if_neg hn3, if_pos h, if_neg (by simp [hp])]

theorem C4_client_server_error_witness :
    (400 ≤ (404 : Nat) ∧ (404 : Nat) < 600) ∧
    ((is_parking_page (snippet ⟨404, "http://m.test/x".data,
        some "not found".data⟩) = true →
      classify_response ⟨404, "http://m.test/x".data,
          some "not found".data⟩ "http".data =
        (.PARKED_ATAU_MUNGKIN_EXPIRED, some 404, some "http://m.test/x".data,
          "http_".data ++ natChars 404 ++ "_parking (".data ++
            "http".data ++ ")".data)) ∧
    (is_parking_page (snippet ⟨404, "http://m.test/x".data,
        some "not found".data⟩) = false →
      classify_response ⟨404, "http://m.test/x".data,
          some "not found".data⟩ "http".data =
        (.ERROR_TIDAK_BISA_DIBUKA, some 404, some "http://m.test/x".data,
          "http_".data ++ natChars 404 ++ " (".data ++
            "http".data ++ ")".data))) :=
  ⟨by decide,
    C4_client_server_error ⟨404, "http://m.test/x".data,
      some "not found".data⟩ "http".data (by decide)⟩

/-- C5: an exception whose lowered message contains one of the DNS
patterns is classified `PARKED_ATAU_MUNGKIN_EXPIRED` with notes
`dns_error: <lowered message>` and absent `http_status`/`final_url`; the
DNS branch is checked first, so it takes priority even when the timeout or
ssl patterns also occur in the message. -/
theorem C5_dns_error (excStr : List Char)
    (h : containsSub "name or service not known".data (pyLower excStr) = true ∨
      containsSub "nxdomain".data (pyLower excStr) = true ∨
      containsSub "not known".data (pyLower excStr) = true) :
    classify_transport_error excStr =
      (.PARKED_ATAU_MUNGKIN_EXPIRED, none, none,
        "dns_error: ".data ++ pyLower excStr) := by
  rcases h with h | h | h <;> simp [classify_transport_error, h]

theorem C5_dns_error_witness :
    ((containsSub "name or service not known".data
        (pyLower "NXDOMAIN after timeout; SSL busy".data) = true ∨
      containsSub "nxdomain".data
        (pyLower "NXDOMAIN after timeout; SSL busy".data) = true ∨
      containsSub "not known".data
        (pyLower "NXDOMAIN after timeout; SSL busy".data) = true) ∧
      containsSub "timeout".data
        (pyLower "NXDOMAIN after timeout; SSL busy".data) = true ∧
      containsSub "ssl".data
        (pyLower "NXDOMAIN after timeout; SSL busy".data) = true) ∧
    classify_transport_error "NXDOMAIN after timeout; SSL busy".data =
      (.PARKED_ATAU_MUNGKIN_EXPIRED, none, none,
        "dns_error: ".data ++ pyLower "NXDOMAIN after timeout; SSL busy".data) :=
  ⟨⟨by decide, by decide, by decide⟩,
    C5_dns_error "NXDOMAIN after timeout; SSL busy".data (by decide)⟩

/-- C6 counterexample: the message "Connection Refused By Peer" matches no
DNS/timeout/ssl pattern, yet the notes returned are the LOWER-CASED
message, not the raw message text as the claim states (the code lowers the
message once at entry, `msg = str(exc).lower()`, and the fallback reuses
that lowered text). -/
theorem C6_counterexample :
    (containsSub "name or service not known".data
        (pyLower "Connection Refused By Peer".data) = false ∧
      containsSub "nxdomain".data
        (pyLower "Connection Refused By Peer".data) = false ∧
      containsSub "not known".data
        (pyLower "Connection Refused By Peer".data) = false ∧
      containsSub "timed out".data
        (pyLower "Connection Refused By Peer".data) = false ∧
      containsSub "timeout".data
        (pyLower "Connection Refused By Peer".data) = false ∧
      containsSub "ssl".data
        (pyLower "Connection Refused By Peer".data) = false ∧
      containsSub "certificate".data
        (pyLower "Connection Refused By Peer".data) = false) ∧
    classify_transport_error "Connection Refused By Peer".data ≠
      (.ERROR_TIDAK_BISA_DIBUKA, none, none,
        "Connection Refused By Peer".data) := by
  exact ⟨by decide, by decide⟩

/-- C6 (amended): an exception matching none of the DNS, timeout or ssl
patterns is classified `ERROR_TIDAK_BISA_DIBUKA` with notes equal to the
lower-cased message text. -/
theorem C6_fallback_lowered (excStr : List Char)
    (h1 : containsSub "name or service not known".data (pyLower excStr) = false)
    (h2 : containsSub "nxdomain".data (pyLower excStr) = false)
    (h3 : containsSub "not known".data (pyLower excStr) = false)
    (h4 : containsSub "timed out".data (pyLower excStr) = false)
    (h5 : containsSub "timeout".data (pyLower excStr) = false)
    (h6 : containsSub "ssl".data (pyLower excStr) = false)
    (h7 : containsSub "certificate".data (pyLower excStr) = false) :
    classify_transport_error excStr =
      (.ERROR_TIDAK_BISA_DIBUKA, none, none, pyLower excStr) := by
  simp [classify_transport_error, h1, h2, h3, h4, h5, h6, h7]

theorem C6_fallback_lowered_witness :
    (containsSub "name or service not known".data
        (pyLower "Connection Refused By Peer".data) = false ∧
      containsSub "nxdomain".data
        (pyLower "Connection Refused By Peer".data) = false ∧
      containsSub "not known".data
        (pyLower "Connection Refused By Peer".data) = false ∧
      containsSub "timed out".data
        (pyLower "Connection Refused By Peer".data) = false ∧
      containsSub "timeout".data
        (pyLower "Connection Refused By Peer".data) = false ∧
      containsSub "ssl".data
        (pyLower "Connection Refused By Peer".data) = false ∧
      containsSub "certificate".data
        (pyLower "Connection Refused By Peer".data) = false) ∧
    classify_transport_error "Connection Refused By Peer".data =
      (.ERROR_TIDAK_BISA_DIBUKA, none, none,
        pyLower "Connection Refused By Peer".data) :=
  ⟨⟨by decide, by decide, by decide, by decide, by decide, by decide,
      by decide⟩,
    C6_fallback_lowered "Connection Refused By Peer".data (by decide)
      (by decide) (by decide) (by decide) (by decide) (by decide) (by decide)⟩

/-- C9: when reading the body raises (`text = none`), classification
proceeds with the empty snippet: both content predicates are false, the
result equals that of the same response with an empty body, a 2xx response
classifies `AKTIF_NON_WORDPRESS`, and (the classifier being a total
function) the error is never propagated. -/
theorem C9_unreadable_body (code : Nat) (url scheme : List Char) :
    snippet ⟨code, url, none⟩ = [] ∧
    is_wordpress (snippet ⟨code, url, none⟩) = false ∧
    is_parking_page (snippet ⟨code, url, none⟩) = false ∧
    classify_response ⟨code, url, none⟩ scheme =
      classify_response ⟨code, url, some []⟩ scheme ∧
    (200 ≤ code ∧ code < 300 →
      classify_response ⟨code, url, none⟩ scheme =
        (.AKTIF_NON_WORDPRESS, some code, some url,
          "no_wp_markers (".data ++ scheme ++ ")".data)) := by
  have hs : snippet ⟨code, url, none⟩ = [] := rfl
  have hs2 : snippet ⟨code, url, some []⟩ = [] := rfl
  have hwp : is_wordpress ([] : List Char) = false := rfl
  have hpk : is_parking_page ([] : List Char) = false := rfl
  refine ⟨hs, by rw [hs]; exact hwp, by rw [hs]; exact hpk, ?_, fun h2 => ?_⟩
  · simp only [classify_response, hs, hs2]
  · simp only [classify_response, hs]
    rw [if_pos h2, if_neg (by simp [hwp]), if_neg (by simp [hpk])]

theorem C9_unreadable_body_witness :
    (200 ≤ (204 : Nat) ∧ (204 : Nat) < 300) ∧
    (snippet ⟨204, "https://e.test/".data, none⟩ = [] ∧
    is_wordpress (snippet ⟨204, "https://e.test/".data, none⟩) = false ∧
    is_parking_page (snippet ⟨204, "https://e.test/".data, none⟩) = false ∧
    classify_response ⟨204, "https://e.test/".data, none⟩ "https".data =
      classify_response ⟨204, "https://e.test/".data, some []⟩ "https".data ∧
    (200 ≤ (204 : Nat) ∧ (204 : Nat) < 300 →
      classify_response ⟨204, "https://e.test/".data, none⟩ "https".data =
        (.AKTIF_NON_WORDPRESS, some 204, some "https://e.test/".data,
          "no_wp_markers (".data ++ "https".data ++ ")".data))) :=
  ⟨by decide, C9_unreadable_body 204 "https://e.test/".data "https".data⟩

theorem check_one_domain_skip (net : Net) (d : List Char)
    (h : pyStrip d = [] ∨ "#".data.isPrefixOf (pyStrip d) = true) :
    check_one_domain net d = none := by
  simp only [check_one_domain]
  rw [if_pos h]

theorem domain_check_one_domain (net : Net) (d : List Char)
    (h1 : pyStrip d ≠ []) (h2 : "#".data.isPrefixOf (pyStrip d) = false) :
    ∃ o, check_one_domain net d = some o ∧ o.domain = pyStrip d :=
  ⟨_, check_one_domain_eq net d h1 h2, domain_tryCandidates net (pyStrip d) _ _⟩

theorem filterMap_check_domains (net : Net) :
    ∀ (ds : List (List Char)), (∀ d ∈ ds, pyStrip d = d ∧ d ≠ []) →
      (ds.filterMap (check_one_domain net)).map (fun o => o.domain) =
        ds.filter (fun d => !("#".data.isPrefixOf d))
  | [], _ => rfl
  | d :: t, h => by
    obtain ⟨hd, hne⟩ := h d (List.mem_cons_self d t)
    have ht := fun x hx => h x (List.mem_cons_of_mem d hx)
    cases hb : "#".data.isPrefixOf d with
    | true =>
      have hskip : check_one_domain net d = none :=
        check_one_domain_skip net d (Or.inr (by rw [hd]; exact hb))
      rw [List.filterMap_cons, hskip, List.filter_cons,
        if_neg (by simp [hb])]
      exact filterMap_check_domains net t ht
    | false =>
      obtain ⟨o, ho, hdom⟩ := domain_check_one_domain net d
        (by rw [hd]; exact hne) (by rw [hd]; exact hb)
      rw [List.filterMap_cons, ho, List.filter_cons, if_pos (by simp [hb])]
      simp only [List.map_cons]
      rw [hdom, hd, filterMap_check_domains net t ht]

/-- C7 counterexample: an input list containing the same domain on two
lines is probed twice and yields two Probe Outcomes for that domain, so
"probes no domain more than once" and "at most one Probe Outcome per
domain" fail as stated for arbitrary input lists. -/
theorem C7_counterexample :
    ((runOutcomes (failNet "connection refused".data)
        ["dup.test".data, "dup.test".data]).map (fun o => o.domain)) =
      ["dup.test".data, "dup.test".data] ∧
    ¬ ((runOutcomes (failNet "connection refused".data)
        ["dup.test".data, "dup.test".data]).countP
          (fun o => o.domain == "dup.test".data) ≤ 1) :=
  ⟨by decide, by decide⟩

/-- C7 (amended): the run produces no Probe Outcome for blank,
whitespace-only or `#`-prefixed lines and exactly one Probe Outcome, whose
domain is the line's trimmed text, for every other line; consequently,
whenever the trimmed non-blank input lines are pairwise distinct, no domain
is probed more than once and the Result Set has at most one Probe Outcome
per domain. -/
theorem C7_one_outcome_per_line (net : Net) (lines : List (List Char)) :
    (runOutcomes net lines).map (fun o => o.domain) =
      ((lines.map pyStrip).filter (fun d => !d.isEmpty)).filter
        (fun d => !("#".data.isPrefixOf d)) ∧
    (((lines.map pyStrip).filter (fun d => !d.isEmpty)).Nodup →
      ((runOutcomes net lines).map (fun o => o.domain)).Nodup) := by
  have hmem : ∀ d ∈ (lines.map pyStrip).filter (fun d => !d.isEmpty),
      pyStrip d = d ∧ d ≠ [] := by
    intro d hdm
    rw [List.mem_filter] at hdm
    obtain ⟨hmap, hfil⟩ := hdm
    obtain ⟨l, _, rfl⟩ := List.mem_map.mp hmap
    refine ⟨pyStrip_pyStrip l, ?_⟩
    simpa using hfil
  have hmain :
      (runOutcomes net lines).map (fun o => o.domain) =
        ((lines.map pyStrip).filter (fun d => !d.isEmpty)).filter
          (fun d => !("#".data.isPrefixOf d)) :=
    filterMap_check_domains net _ hmem
  refine ⟨hmain, fun hnd => ?_⟩
  rw [hmain]
  exact hnd.filter _

theorem C7_one_outcome_per_line_witness :
    ((["http://a.test".data, "   ".data, "# comment".data, "b.test".data].map
        pyStrip).filter (fun d => !d.isEmpty)).Nodup ∧
    ((runOutcomes (failNet "refused".data)
        ["http://a.test".data, "   ".data, "# comment".data, "b.test".data]).map
          (fun o => o.domain) =
      ((["http://a.test".data, "   ".data, "# comment".data, "b.test".data].map
          pyStrip).filter (fun d => !d.isEmpty)).filter
        (fun d => !("#".data.isPrefixOf d)) ∧
    (((["http://a.test".data, "   ".data, "# comment".data, "b.test".data].map
        pyStrip).filter (fun d => !d.isEmpty)).Nodup →
      ((runOutcomes (failNet "refused".data)
          ["http://a.test".data, "   ".data, "# comment".data, "b.test".data]).map
            (fun o => o.domain)).Nodup)) :=
  ⟨by decide,
    C7_one_outcome_per_line (failNet "refused".data)
      ["http://a.test".data, "   ".data, "# comment".data, "b.test".data]⟩

/-! The admission gate of `run` (main.py lines 194-203).

`run` creates one worker per domain; each worker does
`async with sem: return await check_one_domain(...)` against
`sem = asyncio.Semaphore(MAX_CONCURRENCY)`.  The semaphore discipline is
modelled as an interleaving transition system: a worker is `pending` until
it enters the `async with` block, `holding` while inside it (the only
phase that may perform network calls), and `done` after the block exits —
the context manager releases the slot on every exit path, and the worker
body never escapes the block by any other route (its probe is a total
function). -/

/-- State of one worker coroutine of `run`. -/
inductive WStatus where
  | pending
  | holding
  | done
deriving DecidableEq, Repr

/-- Scheduler state: free slots of the semaphore plus all worker states. -/
structure SchedState where
  free : Nat
  workers : List WStatus
deriving DecidableEq, Repr

/-- Initial state: `k` free slots (`asyncio.Semaphore(k)`), all `n`
workers pending. -/
def initState (k n : Nat) : SchedState :=
  ⟨k, List.replicate n .pending⟩

/-- The number of workers currently holding an admission slot. -/
def countHolding (ws : List WStatus) : Nat :=
  ws.countP (fun w => w == WStatus.holding)

/-- One scheduler transition: a pending worker acquires a free slot and
enters the block, or a holding worker finishes (in any way) and releases
its slot. -/
inductive Step : SchedState → SchedState → Prop
  | acquire (s : SchedState) (i : Nat) (hi : i < s.workers.length)
      (hw : s.workers.get ⟨i, hi⟩ = .pending) (hf : 0 < s.free) :
      Step s ⟨s.free - 1, s.workers.set i .holding⟩
  | finish (s : SchedState) (i : Nat) (hi : i < s.workers.length)
      (hw : s.workers.get ⟨i, hi⟩ = .holding) :
      Step s ⟨s.free + 1, s.workers.set i .done⟩

/-- States reachable by the scheduler started with `k` slots, `n` workers. -/
inductive Reachable (k n : Nat) : SchedState → Prop
  | init : Reachable k n (initState k n)
  | step {s t : SchedState} : Reachable k n s → Step s t → Reachable k n t

theorem countP_set (p : WStatus → Bool) :
    ∀ (l : List WStatus) (i : Nat) (a : WStatus) (hi : i < l.length),
      (l.set i a).countP p + (if p (l.get ⟨i, hi⟩) then 1 else 0) =
        l.countP p + (if p a then 1 else 0)
  | [], i, a, hi => absurd hi (by simp)
  | b :: t, 0, a, hi => by
    simp only [List.set_cons_zero, List.get, List.countP_cons]
    omega
  | b :: t, i + 1, a, hi => by
    simp only [List.set_cons_succ, List.get, List.countP_cons]
    have := countP_set p t i a (by simpa using hi)
    omega

theorem step_invariant {k : Nat} {s t : SchedState} (hstep : Step s t)
    (ih : s.free + countHolding s.workers = k) :
    t.free + countHolding t.workers = k := by
  cases hstep with
  | acquire i hi hw hf =>
    have hc := countP_set (fun w => w == WStatus.holding) s.workers i
      WStatus.holding hi
    rw [hw] at hc
    simp only [countHolding] at *
    simp only [show ((WStatus.pending == WStatus.holding) = false) from rfl,
      show ((WStatus.holding == WStatus.holding) = true) from rfl,
      Bool.false_eq_true, if_false, if_true] at hc
    omega
  | finish i hi hw =>
    have hc := countP_set (fun w => w == WStatus.holding) s.workers i
      WStatus.done hi
    rw [hw] at hc
    simp only [countHolding] at *
    simp only [show ((WStatus.done == WStatus.holding) = false) from rfl,
      show ((WStatus.holding == WStatus.holding) = true) from rfl,
      Bool.false_eq_true, if_false, if_true] at hc
    omega

theorem reachable_invariant {k n : Nat} {s : SchedState}
    (h : Reachable k n s) : s.free + countHolding s.workers = k := by
  induction h with
  | init =>
    simp [initState, countHolding, List.countP_replicate]
  | step hr hstep ih =>
    exact step_invariant hstep ih

/-- C8: in every reachable scheduler state at most `k` workers
simultaneously hold an admission slot (with `k = MAX_CONCURRENCY = 20` in
the program); slots and holders always balance (`free + holding = k`,
which is exactly "every slot ever acquired is released on finishing"), and
when every worker has finished — by whatever path — all `k` slots are free
again. -/
theorem C8_admission_gate (k n : Nat) (s : SchedState)
    (h : Reachable k n s) :
    countHolding s.workers ≤ k ∧
    s.free + countHolding s.workers = k ∧
    ((∀ w ∈ s.workers, w = WStatus.done) → s.free = k) := by
  have hinv := reachable_invariant h
  refine ⟨by omega, hinv, fun hall => ?_⟩
  have hzero : countHolding s.workers = 0 := by
    unfold countHolding
    rw [List.countP_eq_zero]
    intro w hw
    rw [hall w hw]
    simp
  omega

theorem C8_admission_gate_witness :
    Reachable MAX_CONCURRENCY 2 ⟨MAX_CONCURRENCY, [WStatus.done, WStatus.done]⟩ ∧
    (countHolding [WStatus.done, WStatus.done] ≤ MAX_CONCURRENCY ∧
    MAX_CONCURRENCY + countHolding [WStatus.done, WStatus.done] = MAX_CONCURRENCY ∧
    ((∀ w ∈ [WStatus.done, WStatus.done], w = WStatus.done) →
      MAX_CONCURRENCY = MAX_CONCURRENCY)) := by
  have h1 : Step (initState MAX_CONCURRENCY 2) ⟨19, [WStatus.holding, WStatus.pending]⟩ :=
    Step.acquire (initState MAX_CONCURRENCY 2) 0 (by decide) (by decide) (by decide)
  have h2 : Step ⟨19, [WStatus.holding, WStatus.pending]⟩
      ⟨20, [WStatus.done, WStatus.pending]⟩ :=
    Step.finish ⟨19, [WStatus.holding, WStatus.pending]⟩ 0 (by decide) (by decide)
  have h3 : Step ⟨20, [WStatus.done, WStatus.pending]⟩
      ⟨19, [WStatus.done, WStatus.holding]⟩ :=
    Step.acquire ⟨20, [WStatus.done, WStatus.pending]⟩ 1 (by decide) (by decide)
      (by decide)
  have h4 : Step ⟨19, [WStatus.done, WStatus.holding]⟩
      ⟨20, [WStatus.done, WStatus.done]⟩ :=
    Step.finish ⟨19, [WStatus.done, WStatus.holding]⟩ 1 (by decide) (by decide)
  have hreach : Reachable MAX_CONCURRENCY 2
      ⟨MAX_CONCURRENCY, [WStatus.done, WStatus.done]⟩ :=
    ((((Reachable.init).step h1).step h2).step h3).step h4
  exact ⟨hreach, C8_admission_gate MAX_CONCURRENCY 2 _ hreach⟩

end CekPbn
